import Mathlib

/-!
Verification development for the IntelliDoc repository.

The client layer (frontend/src/services/api.ts, the upload / polling / search
components) is embedded shallowly: each TypeScript function that the claims
touch becomes a Lean function over explicit data, with JavaScript truthiness
(`0`, `""`, `undefined` are falsy) modelled explicitly.  The backend pipeline
(chunker, answer synthesis, task store) is not part of the sources, so those
pieces are modelled from the specification and marked as such in their doc
comments.
-/

namespace IntelliDoc

/-! ## Data model, from the interfaces of frontend/src/services/api.ts -/

/-- A search source entry (api.ts `Source`). -/
structure Source where
  doc_id : Int
  doc_title : String
deriving Repr, DecidableEq

/-- The dual-answer comparison payload (api.ts `DualAnswerInfo`). -/
structure DualAnswerInfo where
  local_answer : String
  groq_answer : String
  selected_source : String
  selection_reason : String
  dual_answers_enabled : Bool
deriving Repr, DecidableEq

/-- The search response (api.ts `SearchResponse`); `processing_time` and
`dual_answers` are optional fields. -/
structure SearchResponse where
  query : String
  answer : String
  sources : List Source
  processing_time : Option Rat
  dual_answers : Option DualAnswerInfo
deriving Repr, DecidableEq

/-- The upload response (api.ts `UploadResponse`): a task handle only. -/
structure UploadResponse where
  task_id : String
  status : String
  message : String
deriving Repr, DecidableEq

/-- The document payload of a completed task (api.ts `TaskStatus.result`). -/
structure TaskResult where
  document_id : Int
  title : String
  chunks_count : Nat
  file_size : Nat
  file_type : String
deriving Repr, DecidableEq

/-- A task status record (api.ts `TaskStatus`). -/
structure TaskStatus where
  task_id : String
  status : String
  progress : Rat
  message : String
  result : Option TaskResult
deriving Repr, DecidableEq

/-! ## JavaScript truthiness helpers -/

/-- Truthiness of an optional number: `undefined`/`null` and `0` are falsy. -/
def numTruthy : Option Int → Bool
  | none => false
  | some d => d != 0

/-- `x || dflt` on an optional string: `undefined`/`null` and `""` are falsy. -/
def jsStrOr : Option String → String → String
  | none, dflt => dflt
  | some s, dflt => if s = "" then dflt else s

/-- `a || b` on strings: the empty string is falsy. -/
def jsOrStr (a b : String) : String := if a = "" then b else a

/-! ## ApiService.search (api.ts lines 271-295)

The TypeScript builds `URLSearchParams` with `q`, `limit`, `offset`, and
appends `doc_id` only when the `docId` argument is truthy. -/

/-- The query-parameter list built by `ApiService.search query limit offset docId`. -/
def searchParams (query : String) (limit offset : Int) (docId : Option Int) :
    List (String × String) :=
  [("q", query), ("limit", toString limit), ("offset", toString offset)] ++
    (match docId with
     | some d => if d != 0 then [("doc_id", toString d)] else []
     | none => [])

/-- `ApiService.search` with its TypeScript default arguments
(`limit = 10`, `offset = 0`). -/
def searchParamsDefault (query : String) (docId : Option Int) :
    List (String × String) :=
  searchParams query 10 0 docId

/-! ## Theorems for C1 and C8 -/

/-- C1, counterexample: the default search request sends exactly the
parameters `q`, `limit` (10) and `offset` (0); no parameter carries a
top-M synthesis limit of 3, so the client does not send the inputs the
claim lists. -/
theorem C1_counterexample :
    searchParamsDefault "exam" none =
      [("q", "exam"), ("limit", "10"), ("offset", "0")] ∧
    "3" ∉ (searchParamsDefault "exam" none).map Prod.snd := by
  constructor
  · rfl
  · decide

/-- C1 (amended): every `ApiService.search` request carries exactly the query
parameters `q` (the query), `limit` (default 10), `offset` (default 0), plus
`doc_id` exactly when the supplied document id is truthy; the response record
consists of `query`, `answer`, `sources`, the optional `processing_time` and
the optional `dual_answers` and nothing else. -/
theorem C1_request_shape (query : String) (docId : Option Int) :
    (searchParamsDefault query docId).map Prod.fst =
      ["q", "limit", "offset"] ++ (if numTruthy docId then ["doc_id"] else []) ∧
    ("q", query) ∈ searchParamsDefault query docId ∧
    ("limit", "10") ∈ searchParamsDefault query docId ∧
    ("offset", "0") ∈ searchParamsDefault query docId ∧
    (∀ r s : SearchResponse, r.query = s.query → r.answer = s.answer →
      r.sources = s.sources → r.processing_time = s.processing_time →
      r.dual_answers = s.dual_answers → r = s) := by
  refine ⟨?_, ?_, ?_, ?_, ?_⟩
  · match docId with
    | none => rfl
    | some d =>
      by_cases h : d = 0
      · subst h; rfl
      · simp only [searchParamsDefault, searchParams, numTruthy]
        rw [if_pos (by simpa using h), if_pos (by simpa using h)]
        rfl
  · exact List.mem_append_left _ (by simp)
  · exact List.mem_append_left _ (by simp; rfl)
  · exact List.mem_append_left _ (by simp; rfl)
  · intro r s h1 h2 h3 h4 h5
    cases r; cases s; simp_all

/-- Witness for C1: the amended theorem evaluated at a concrete request and a
pair of concrete equal responses. -/
theorem C1_request_shape_witness :
    ("limit", "10") ∈ searchParamsDefault "x" none ∧
    ({ query := "a", answer := "b", sources := [], processing_time := none,
       dual_answers := none } : SearchResponse) =
      { query := "a", answer := "b", sources := [], processing_time := none,
        dual_answers := none } :=
  ⟨(C1_request_shape "x" none).2.2.1,
   (C1_request_shape "x" none).2.2.2.2 _ _ rfl rfl rfl rfl rfl⟩

/-- C8: the `doc_id` query parameter is present iff the supplied `docId`
is truthy — absent for `undefined` and for `0`, and sent with the printed
id for every nonzero id. -/
theorem C8_docid_truthy (query : String) (limit offset : Int)
    (docId : Option Int) :
    ("doc_id" ∈ (searchParams query limit offset docId).map Prod.fst ↔
      ∃ d, docId = some d ∧ d ≠ 0) ∧
    (∀ d, docId = some d → d ≠ 0 →
      ("doc_id", toString d) ∈ searchParams query limit offset docId) := by
  constructor
  · constructor
    · intro h
      match docId with
      | none => simp [searchParams] at h
      | some d =>
        refine ⟨d, rfl, ?_⟩
        intro hd
        subst hd
        simp [searchParams] at h
    · rintro ⟨d, rfl, hd⟩
      simp [searchParams, hd]
  · rintro d rfl hd
    simp [searchParams, hd]

/-- Witness for C8: a nonzero id 7 is sent as `doc_id=7`, and the parameter is
indeed present for it. -/
theorem C8_docid_truthy_witness :
    ("doc_id" ∈ (searchParams "q" 10 0 (some 7)).map Prod.fst) ∧
    ("doc_id", "7") ∈ searchParams "q" 10 0 (some 7) :=
  ⟨(C8_docid_truthy "q" 10 0 (some 7)).1.mpr ⟨7, rfl, by decide⟩,
   (C8_docid_truthy "q" 10 0 (some 7)).2 7 rfl (by decide)⟩

/-! ## Upload: StunningUpload, UploadForm, UploadProgress, Summarize

`POST /upload` resolves to an `UploadResponse` (a task handle); the document
payload appears only in `TaskStatus.result` observed by the status polls. -/

/-- Event emitted by `StunningUpload.handleUpload` (StunningUpload.tsx 37-65)
after the upload call settles. -/
inductive UploadEvent
  | started (taskId : String)
  | uploadError (msg : String)
deriving Repr, DecidableEq

/-- `StunningUpload.handleUpload`: on success it invokes `onUploadStart` with
`response.task_id`; on failure, `onUploadError` with the error message. -/
def handleUpload : Except String UploadResponse → UploadEvent
  | .ok r => .started r.task_id
  | .error m => .uploadError m

/-- `UploadForm.handleUpload` reads `(result as any).result?.title` from the
upload response; `UploadResponse` (api.ts 52-56) has no `result` member, so
the optional-chained access yields nothing. -/
def uploadResponseResult (_ : UploadResponse) : Option TaskResult := none

/-- The title `UploadForm` displays: `result?.title || file.name`. -/
def uploadFormTitle (fileName : String) (r : UploadResponse) : String :=
  match (uploadResponseResult r).map TaskResult.title with
  | some t => if t = "" then fileName else t
  | none => fileName

/-- The chunk count `UploadForm` displays: `result?.chunks_count`. -/
def uploadFormChunks (r : UploadResponse) : Option Nat :=
  (uploadResponseResult r).map TaskResult.chunks_count

/-- Outcome of one `UploadProgress.pollStatus` tick (part_004 lines 41-57). -/
inductive PollOutcome
  | finished (result : Option TaskResult)
  | failedPoll (msg : String)
  | keepGoing
deriving Repr, DecidableEq

/-- `UploadProgress.pollStatus`: delivers `result` via `onComplete` when the
status is `completed`, the `message` via `onError` when it is `failed`, and
otherwise keeps the interval running. -/
def uploadProgressPoll (t : TaskStatus) : PollOutcome :=
  if t.status = "completed" then .finished t.result
  else if t.status = "failed" then .failedPoll t.message
  else .keepGoing

/-- The `setInterval` delay of the `UploadProgress` poll (part_004 line 60). -/
def uploadProgressIntervalMs : Nat := 1000

/-- Outcome of one tick of the `Summarize.handleFile` polling interval. -/
inductive SummarizeStep
  | stopAndRefresh (selectDoc : Option Int)
  | keepPolling
deriving Repr, DecidableEq

/-- One tick of the `Summarize.handleFile` poll (Summarize.tsx 149-172): the
interval is cleared only when the status is `done`, `completed` or `finished`;
it then refreshes the list and selects `result.document_id` when that id is
truthy.  No branch handles `failed`. -/
def summarizePollStep (t : TaskStatus) : SummarizeStep :=
  if t.status = "done" ∨ t.status = "completed" ∨ t.status = "finished" then
    .stopAndRefresh
      (match t.result with
       | some res => if res.document_id != 0 then some res.document_id else none
       | none => none)
  else .keepPolling

/-- The `window.setInterval` delay of the `Summarize` poll (line 172). -/
def summarizeIntervalMs : Nat := 1000

/-- One `pollOnce` of Onboarding.tsx (lines 75-105): returns true (stop the
interval) exactly on `completed` or `failed`. -/
def onboardingPollDone (t : TaskStatus) : Bool :=
  t.status == "completed" || t.status == "failed"

/-- The `setInterval` delay of the Onboarding poll (line 126). -/
def onboardingIntervalMs : Nat := 1000

/-! ## ApiService.getUploadStatus (api.ts 259-268) and the status endpoint -/

/-- The observable outcome of `ApiService.getUploadStatus` given the fetch
response: non-ok responses throw an `Error` carrying the parsed `detail`
(`error.detail || "Failed to get upload status"`); ok responses return the
parsed `TaskStatus` body. -/
def getUploadStatus (ok : Bool) (detail : Option String) (body : TaskStatus) :
    Except String TaskStatus :=
  if ok then .ok body
  else .error (jsStrOr detail "Failed to get upload status")

/-- Modelled from the spec: the backend `GetIngestionStatus` endpoint is not
among the sources (only its client and callers are).  Spec §6/§4.8: an
idempotent lookup of the task record; polling an unknown `task_id` is a
`NotFound` error, not a silent empty response. -/
def getIngestionStatus (store : List TaskStatus) (id : String) :
    Except String TaskStatus :=
  match store.find? (fun t => t.task_id == id) with
  | some t => .ok t
  | none => .error "TaskNotFound"

/-! ## Theorems for C2, C3, C4 -/

/-- C2: an accepted upload yields only a task handle.  The upload response
type consists of `task_id`, `status`, `message` and nothing else; the client
hands exactly `task_id` onward; `UploadForm`'s attempt to read a document
payload out of the upload response falls back to the file name with no chunk
count; and the document result is delivered by the status poll, on a
`completed` task. -/
theorem C2_upload_task_handle_only :
    (∀ a b : UploadResponse, a.task_id = b.task_id → a.status = b.status →
      a.message = b.message → a = b) ∧
    (∀ r : UploadResponse, handleUpload (.ok r) = .started r.task_id) ∧
    (∀ fileName r, uploadFormTitle fileName r = fileName ∧
      uploadFormChunks r = none) ∧
    (∀ t : TaskStatus, t.status = "completed" →
      uploadProgressPoll t = .finished t.result) := by
  refine ⟨?_, fun _ => rfl, fun _ _ => ⟨rfl, rfl⟩, ?_⟩
  · intro a b h1 h2 h3
    cases a; cases b; simp_all
  · intro t ht
    simp [uploadProgressPoll, ht]

/-- Witness for C2: the conjuncts evaluated at a concrete response and a
concrete completed task. -/
theorem C2_upload_task_handle_only_witness :
    ({ task_id := "t1", status := "queued", message := "ok" } : UploadResponse) =
      { task_id := "t1", status := "queued", message := "ok" } ∧
    handleUpload (.ok { task_id := "t1", status := "queued", message := "ok" }) =
      .started "t1" ∧
    uploadProgressPoll
        { task_id := "t1", status := "completed", progress := 100,
          message := "done",
          result := some { document_id := 1, title := "a.txt", chunks_count := 3,
                           file_size := 10, file_type := "txt" } } =
      .finished (some { document_id := 1, title := "a.txt", chunks_count := 3,
                        file_size := 10, file_type := "txt" }) :=
  ⟨C2_upload_task_handle_only.1 _ _ rfl rfl rfl,
   C2_upload_task_handle_only.2.1 _,
   C2_upload_task_handle_only.2.2.2 _ rfl⟩

/-- C3, counterexample: when a poll of the `Summarize.handleFile` loop
observes the terminal status `failed`, the interval is not cleared — the loop
keeps polling and surfaces no error, contrary to the claim that every polling
loop stops on a terminal status and reports the failure message. -/
theorem C3_counterexample :
    summarizePollStep
        { task_id := "t", status := "failed", progress := 10,
          message := "boom", result := none } = .keepPolling := by
  decide

/-- C3 (amended): every status-polling loop runs at a fixed 1-second
interval; the `UploadProgress` and Onboarding loops stop as soon as a poll
observes `completed` (delivering the result) or `failed` (delivering the
message as an error); the `Summarize.handleFile` loop stops only on the
success statuses `done`/`completed`/`finished` and keeps polling on a
`failed` status. -/
theorem C3_polling_loops :
    summarizeIntervalMs = 1000 ∧ uploadProgressIntervalMs = 1000 ∧
    onboardingIntervalMs = 1000 ∧
    (∀ t : TaskStatus, t.status = "completed" →
      uploadProgressPoll t = .finished t.result) ∧
    (∀ t : TaskStatus, t.status = "failed" →
      uploadProgressPoll t = .failedPoll t.message) ∧
    (∀ t : TaskStatus, onboardingPollDone t = true ↔
      (t.status = "completed" ∨ t.status = "failed")) ∧
    (∀ t : TaskStatus, summarizePollStep t = .keepPolling ↔
      ¬(t.status = "done" ∨ t.status = "completed" ∨ t.status = "finished")) := by
  refine ⟨rfl, rfl, rfl, ?_, ?_, ?_, ?_⟩
  · intro t ht; simp [uploadProgressPoll, ht]
  · intro t ht; simp [uploadProgressPoll, ht]
  · intro t; simp [onboardingPollDone]
  · intro t
    constructor
    · intro h hstat
      simp [summarizePollStep, hstat] at h
    · intro h
      simp [summarizePollStep, h]

/-- Witness for C3: the amended theorem evaluated on a concrete failed task
(for the stopping loops) and a concrete processing task (for the Summarize
loop). -/
theorem C3_polling_loops_witness :
    uploadProgressPoll
        { task_id := "t", status := "failed", progress := 10,
          message := "boom", result := none } = .failedPoll "boom" ∧
    onboardingPollDone
        { task_id := "t", status := "failed", progress := 10,
          message := "boom", result := none } = true ∧
    summarizePollStep
        { task_id := "t", status := "processing", progress := 10,
          message := "extracting", result := none } = .keepPolling :=
  ⟨C3_polling_loops.2.2.2.2.1 _ rfl,
   (C3_polling_loops.2.2.2.2.2.1 _).mpr (Or.inr rfl),
   (C3_polling_loops.2.2.2.2.2.2 _).mpr (by decide)⟩

/-- C4: polling an unknown `task_id` yields the `TaskNotFound` error, never a
silent empty response; the client `getUploadStatus` throws for every non-ok
response — carrying the server's `detail` whenever one is present (and a
fixed fallback message otherwise) — and returns the parsed task record
exactly on success. -/
theorem C4_status_not_found :
    (∀ (store : List TaskStatus) (id : String),
      (∀ t ∈ store, t.task_id ≠ id) →
      getIngestionStatus store id = .error "TaskNotFound") ∧
    (∀ (detail : Option String) (body : TaskStatus),
      getUploadStatus false detail body =
        .error (jsStrOr detail "Failed to get upload status")) ∧
    (∀ (d : String) (body : TaskStatus), d ≠ "" →
      getUploadStatus false (some d) body = .error d) ∧
    (∀ (detail : Option String) (body : TaskStatus),
      getUploadStatus true detail body = .ok body) := by
  refine ⟨?_, fun _ _ => rfl, ?_, fun _ _ => rfl⟩
  · intro store id h
    have hfind : store.find? (fun t => t.task_id == id) = none := by
      rw [List.find?_eq_none]
      intro t ht
      simpa using h t ht
    simp [getIngestionStatus, hfind]
  · intro d body hd
    simp [getUploadStatus, jsStrOr, hd]

/-- Witness for C4: an unknown id against a concrete one-task store, a non-ok
response with a concrete detail, and a successful poll. -/
theorem C4_status_not_found_witness :
    getIngestionStatus
        [{ task_id := "a", status := "completed", progress := 100,
           message := "done", result := none }] "b" = .error "TaskNotFound" ∧
    getUploadStatus false (some "Task not found")
        { task_id := "b", status := "failed", progress := 0,
          message := "", result := none } = .error "Task not found" ∧
    getUploadStatus true none
        { task_id := "a", status := "queued", progress := 0,
          message := "queued", result := none } =
      .ok { task_id := "a", status := "queued", progress := 0,
            message := "queued", result := none } :=
  ⟨C4_status_not_found.1 _ "b" (by decide),
   C4_status_not_found.2.2.1 "Task not found"
     { task_id := "b", status := "failed", progress := 0,
       message := "", result := none } (by decide),
   C4_status_not_found.2.2.2 none _⟩

/-! ## Summarize.runQuery (Summarize.tsx 189-211) -/

/-- The answer surfaced by `Summarize.runQuery`: with a dual payload the
chosen answer is `groq_answer` when `selected_source === 'groq'`, else
`local_answer`, surfaced as `chosen || res.answer || 'No answer returned'`;
without a payload, `res.answer || 'No answer returned'`. -/
def runQueryAnswer (res : SearchResponse) : String :=
  match res.dual_answers with
  | some info =>
    let chosen :=
      if info.selected_source = "groq" then info.groq_answer
      else info.local_answer
    jsOrStr chosen (jsOrStr res.answer "No answer returned")
  | none => jsOrStr res.answer "No answer returned"

/-- C5, counterexample: a response whose dual payload selects `groq` with an
empty groq answer surfaces the response's `answer` field `"A"`, not the
selected path's answer `""`. -/
theorem C5_counterexample :
    runQueryAnswer
        { query := "q", answer := "A", sources := [], processing_time := none,
          dual_answers := some
            { local_answer := "L", groq_answer := "",
              selected_source := "groq", selection_reason := "r",
              dual_answers_enabled := true } } = "A" ∧
    ("A" : String) ≠ "" := by
  constructor
  · rfl
  · decide

/-- C5 (amended): the dual payload carries both path answers plus
`selected_source` and `selection_reason` (and nothing more than those with
`dual_answers_enabled`); when the payload is present the surfaced answer
equals the selected path's answer whenever that answer is nonempty — the
groq answer exactly when `selected_source` is `'groq'`, otherwise the local
answer — while an empty selected answer falls back to the response's
`answer` and then to `'No answer returned'`; when the payload is absent the
surfaced answer equals the response's `answer` field whenever that field is
nonempty. -/
theorem C5_selected_answer (res : SearchResponse) (info : DualAnswerInfo) :
    (∀ a b : DualAnswerInfo, a.local_answer = b.local_answer →
      a.groq_answer = b.groq_answer → a.selected_source = b.selected_source →
      a.selection_reason = b.selection_reason →
      a.dual_answers_enabled = b.dual_answers_enabled → a = b) ∧
    (res.dual_answers = some info →
      (info.selected_source = "groq" → info.groq_answer ≠ "" →
        runQueryAnswer res = info.groq_answer) ∧
      (info.selected_source ≠ "groq" → info.local_answer ≠ "" →
        runQueryAnswer res = info.local_answer) ∧
      ((if info.selected_source = "groq" then info.groq_answer
        else info.local_answer) = "" →
        runQueryAnswer res = jsOrStr res.answer "No answer returned")) ∧
    (res.dual_answers = none → res.answer ≠ "" →
      runQueryAnswer res = res.answer) := by
  refine ⟨?_, ?_, ?_⟩
  · intro a b h1 h2 h3 h4 h5
    cases a; cases b; simp_all
  · intro hdual
    refine ⟨?_, ?_, ?_⟩
    · intro hsel hne
      simp [runQueryAnswer, hdual, hsel, jsOrStr, hne]
    · intro hsel hne
      simp [runQueryAnswer, hdual, hsel, jsOrStr, hne]
    · intro hempty
      simp only [runQueryAnswer, hdual]
      rw [hempty]
      rfl
  · intro hdual hne
    simp [runQueryAnswer, hdual, jsOrStr, hne]

/-- Witness for C5: the amended theorem evaluated on a concrete response with
a groq-selected payload and on a concrete payload-free response. -/
theorem C5_selected_answer_witness :
    runQueryAnswer
        { query := "q", answer := "A", sources := [], processing_time := none,
          dual_answers := some
            { local_answer := "L", groq_answer := "G",
              selected_source := "groq", selection_reason := "longer",
              dual_answers_enabled := true } } = "G" ∧
    runQueryAnswer
        { query := "q", answer := "A", sources := [], processing_time := none,
          dual_answers := none } = "A" :=
  ⟨((C5_selected_answer _
      { local_answer := "L", groq_answer := "G", selected_source := "groq",
        selection_reason := "longer", dual_answers_enabled := true }).2.1
      rfl).1 rfl (by decide),
   (C5_selected_answer
      { query := "q", answer := "A", sources := [], processing_time := none,
        dual_answers := none }
      { local_answer := "", groq_answer := "", selected_source := "",
        selection_reason := "", dual_answers_enabled := false }).2.2 rfl
      (by decide)⟩

/-! ## Answer synthesis with dual paths (spec §4.7) -/

/-- Result of one generation path. -/
inductive GenResult
  | generated (answer : String)
  | genFailed (err : String)
deriving Repr, DecidableEq

/-- Modelled from the spec: the backend Answer Synthesizer + Selector
(spec §4.7) is not among the sources.  Failure of one path makes the other
primary; when both succeed the heuristically better (here: longer, ties to
the local default path) wins; when both fail the answer is the explicit
`"No answer available"` marker.  Returns (answer, marker flag). -/
def selectAnswer : GenResult → GenResult → String × Bool
  | .generated a, .genFailed _ => (a, false)
  | .genFailed _, .generated b => (b, false)
  | .generated a, .generated b =>
      (if b.length > a.length then b else a, false)
  | .genFailed _, .genFailed _ => ("No answer available", true)

/-- Modelled from the spec: the `Search` response assembly (spec §4.7/§7) is
not among the sources.  It is a total function — generation failures are
absorbed by selection and never raise to the caller — and it always attaches
the retrieved sources. -/
def searchRespond (query : String) (sources : List Source)
    (localPath altPath : GenResult) : SearchResponse :=
  { query := query
    answer := (selectAnswer localPath altPath).1
    sources := sources
    processing_time := none
    dual_answers := none }

/-- C6: when both generation paths fail, `Search` still returns a response —
never an exception — whose sources are exactly the retrieved ones and whose
answer is the explicit `"No answer available"` marker; and it is flagged as
the no-answer outcome by the selector. -/
theorem C6_no_answer_available (query : String) (sources : List Source)
    (e1 e2 : String) :
    (searchRespond query sources (.genFailed e1) (.genFailed e2)).sources =
      sources ∧
    (searchRespond query sources (.genFailed e1) (.genFailed e2)).answer =
      "No answer available" ∧
    (selectAnswer (.genFailed e1) (.genFailed e2)).2 = true := by
  exact ⟨rfl, rfl, rfl⟩

/-! ## Chunker (spec §4.2) -/

/-- Modelled from the spec: the backend Chunker is not among the sources.
A window of `chunkSize` characters advances by `chunkSize - overlap` each
step (floored at 1 so the walk is total even for degenerate parameters); the
natural-boundary snap heuristic is left implementation-defined by the spec
(§9), so the model hard-cuts at the window edge; the last window may be
shorter.  `chunkSpansGo fuel c o n pos` lists the `(start, stop)` spans of
the windows from `pos`; the fuel only bounds the recursion and `n` steps
always suffice. -/
def chunkSpansGo : Nat → Nat → Nat → Nat → Nat → List (Nat × Nat)
  | 0, _, _, n, pos => [(pos, n)]
  | fuel + 1, c, o, n, pos =>
    if n ≤ pos + c then [(pos, n)]
    else (pos, pos + c) :: chunkSpansGo fuel c o n (pos + max 1 (c - o))

/-- The chunk spans of a text of length `n` with `chunkSize = c`,
`overlap = o`. -/
def chunkSpans (c o n : Nat) : List (Nat × Nat) := chunkSpansGo n c o n 0

/-- The chunks themselves: each span's slice of the input characters. -/
def chunkText (c o : Nat) (s : List Char) : List (List Char) :=
  (chunkSpans c o s.length).map fun sp => (s.drop sp.1).take (sp.2 - sp.1)

/-- Every span list starts at `pos` and its first stop is the text end or the
window edge. -/
theorem chunkSpansGo_head (fuel c o n pos : Nat) :
    ∃ e, (chunkSpansGo fuel c o n pos).head? = some (pos, e) ∧
      (e = n ∨ e = pos + c) := by
  cases fuel with
  | zero => exact ⟨n, rfl, Or.inl rfl⟩
  | succ f =>
    by_cases h : n ≤ pos + c
    · exact ⟨n, by simp [chunkSpansGo, h], Or.inl rfl⟩
    · exact ⟨pos + c, by simp [chunkSpansGo, h], Or.inr rfl⟩

/-- Coverage: with a positive window every character position at or beyond
the start is inside some span. -/
theorem chunkSpansGo_cover (c o : Nat) (hc : 0 < c) (n : Nat) :
    ∀ fuel pos i, pos ≤ i → i < n →
      ∃ sp ∈ chunkSpansGo fuel c o n pos, sp.1 ≤ i ∧ i < sp.2 := by
  intro fuel
  induction fuel with
  | zero =>
    intro pos i hpi hin
    exact ⟨(pos, n), by simp [chunkSpansGo], hpi, hin⟩
  | succ f ih =>
    intro pos i hpi hin
    by_cases h : n ≤ pos + c
    · exact ⟨(pos, n), by simp [chunkSpansGo, h], hpi, hin⟩
    · by_cases h2 : i < pos + c
      · exact ⟨(pos, pos + c), by simp [chunkSpansGo, h], hpi, h2⟩
      · obtain ⟨sp, hmem, hsp⟩ :=
          ih (pos + max 1 (c - o)) i (by omega) hin
        exact ⟨sp, by simp [chunkSpansGo, h]; exact Or.inr hmem, hsp⟩

/-- Overlap: with `o < c`, consecutive spans share exactly `o` positions —
the next span starts exactly `o` characters before the previous stop and
reaches at least as far. -/
theorem chunkSpansGo_chain (c o : Nat) (ho : o < c) (n : Nat) :
    ∀ fuel pos, List.Chain'
      (fun a b => b.1 + o = a.2 ∧ a.2 ≤ b.2) (chunkSpansGo fuel c o n pos) := by
  intro fuel
  induction fuel with
  | zero => intro pos; simp [chunkSpansGo]
  | succ f ih =>
    intro pos
    by_cases h : n ≤ pos + c
    · simp [chunkSpansGo, h]
    · simp only [chunkSpansGo, if_neg h]
      rw [List.chain'_cons']
      refine ⟨?_, ih _⟩
      intro b hb
      obtain ⟨e, hhead, he⟩ := chunkSpansGo_head f c o n (pos + max 1 (c - o))
      rw [hhead] at hb
      obtain rfl : (pos + max 1 (c - o), e) = b := by simpa using hb
      refine ⟨?_, ?_⟩
      · show pos + max 1 (c - o) + o = pos + c
        omega
      · show pos + c ≤ e
        rcases he with rfl | rfl
        · omega
        · omega

/-- Degenerate case: text no longer than the window is one single span. -/
theorem chunkSpans_single (c o n : Nat) (h : n ≤ c) :
    chunkSpans c o n = [(0, n)] := by
  cases n with
  | zero => rfl
  | succ m =>
    have hm : m + 1 ≤ 0 + c := by omega
    simp only [chunkSpans, chunkSpansGo, if_pos hm]

set_option maxRecDepth 8000 in
/-- C7: the spec-modelled Chunker covers every character of the input with no
gaps; with `overlap < chunk_size` consecutive chunks overlap by exactly the
configured `overlap` (the hard-cut model realises the snap tolerance as zero
shift); an input of length at most `chunk_size` yields exactly one chunk
equal to the whole text; and a 2000-character input with `chunk_size = 800`,
`overlap = 120` yields exactly 3 chunks. -/
theorem C7_chunker (c o : Nat) (s : List Char) (hc : 0 < c) (ho : o < c) :
    (∀ i, i < s.length →
      ∃ sp ∈ chunkSpans c o s.length, sp.1 ≤ i ∧ i < sp.2) ∧
    List.Chain' (fun a b => b.1 + o = a.2 ∧ a.2 ≤ b.2)
      (chunkSpans c o s.length) ∧
    (s.length ≤ c → chunkText c o s = [s]) ∧
    (chunkText 800 120 (List.replicate 2000 'a')).length = 3 := by
  refine ⟨?_, ?_, ?_, ?_⟩
  · intro i hi
    exact chunkSpansGo_cover c o hc s.length s.length 0 i (Nat.zero_le i) hi
  · exact chunkSpansGo_chain c o ho s.length s.length 0
  · intro h
    simp [chunkText, chunkSpans_single c o s.length h]
  · have hspans : (chunkSpans 800 120 2000).length = 3 := by decide
    simp [chunkText, hspans]

/-- Witness for C7: the theorem evaluated at the 2000-character scenario and
at a short input that fits in one window. -/
theorem C7_chunker_witness :
    (chunkText 800 120 (List.replicate 2000 'a')).length = 3 ∧
    chunkText 800 120 ['h', 'i'] = [['h', 'i']] :=
  ⟨(C7_chunker 800 120 (List.replicate 2000 'a') (by decide) (by decide)).2.2.2,
   (C7_chunker 800 120 ['h', 'i'] (by decide) (by decide)).2.2.1 (by decide)⟩

/-! ## Drag-and-drop file acceptance (StunningUpload.tsx 85-102) -/

/-- JavaScript `name.split('.')` over characters: splits at every dot,
keeps empty segments, and yields `[name]` when the name has no dot. -/
def splitOnDot : List Char → List (List Char)
  | [] => [[]]
  | ch :: cs =>
    match splitOnDot cs with
    | [] => [[]]
    | seg :: segs =>
      if ch = '.' then [] :: seg :: segs else (ch :: seg) :: segs

/-- The accepted extension list of `handleDrop` (line 93). -/
def allowedTypes : List String := [".pdf", ".docx", ".doc", ".txt"]

/-- The extension computed at line 94:
`'.' + droppedFile.name.split('.').pop()?.toLowerCase()`. -/
def dropExtension (name : String) : String :=
  ('.' :: ((splitOnDot name.toList).getLastD []).map Char.toLower).asString

/-- `handleDrop` accepts the dropped file iff `allowedTypes` includes the
computed extension (lines 96-100). -/
def handleDropAccepts (name : String) : Bool :=
  decide (dropExtension name ∈ allowedTypes)

/-- Whether the file name contains a dot at all. -/
def hasDot (name : String) : Bool :=
  decide ('.' ∈ name.toList)

/-- The four allowed bare extensions, as lowercase character lists. -/
def bareAllowed : List (List Char) :=
  [['p', 'd', 'f'], ['d', 'o', 'c', 'x'], ['d', 'o', 'c'], ['t', 'x', 't']]

/-- The claim's acceptance predicate: the name has a dot and the lowercased
segment after the last dot is one of `pdf`, `docx`, `doc`, `txt`. -/
def claimAccepts (name : String) : Bool :=
  hasDot name &&
    decide (((splitOnDot name.toList).getLastD []).map Char.toLower ∈ bareAllowed)

theorem asString_injective (x y : List Char) :
    x.asString = y.asString ↔ x = y := by
  constructor
  · intro h
    exact congrArg String.data h
  · intro h
    rw [h]

theorem mem_allowed_iff (x : List Char) :
    ('.' :: x).asString ∈ allowedTypes ↔ x ∈ bareAllowed := by
  have h1 : (".pdf" : String) = ('.' :: ['p', 'd', 'f']).asString := rfl
  have h2 : (".docx" : String) = ('.' :: ['d', 'o', 'c', 'x']).asString := rfl
  have h3 : (".doc" : String) = ('.' :: ['d', 'o', 'c']).asString := rfl
  have h4 : (".txt" : String) = ('.' :: ['t', 'x', 't']).asString := rfl
  simp only [allowedTypes, bareAllowed, List.mem_cons, List.not_mem_nil,
    or_false, h1, h2, h3, h4, asString_injective, List.cons.injEq, true_and]

theorem splitOnDot_no_dot (l : List Char) (h : '.' ∉ l) : splitOnDot l = [l] := by
  induction l with
  | nil => rfl
  | cons ch cs ih =>
    have hch : ¬ch = '.' := fun e => h (e ▸ List.mem_cons_self ch cs)
    have hcs : '.' ∉ cs := fun m => h (List.mem_cons_of_mem ch m)
    simp [splitOnDot, ih hcs, hch]

/-- C9, counterexample: the dotless file name `"txt"` is accepted —
`'.' + 'txt'.split('.').pop()` is `".txt"` — although the claim says every
file name without a dot is rejected. -/
theorem C9_counterexample :
    handleDropAccepts "txt" = true ∧ hasDot "txt" = false := by
  constructor
  · rfl
  · rfl

/-- C9 (amended): for a file name containing a dot, drop acceptance holds iff
the lowercased extension after the last dot is one of `.pdf`, `.docx`,
`.doc`, `.txt`; a dotless file name is accepted iff its entire lowercased
name is one of the bare extensions `pdf`, `docx`, `doc`, `txt` (so such
names are not always rejected); nothing else is accepted. -/
theorem C9_drop_extension (name : String) :
    (hasDot name = true →
      (handleDropAccepts name = true ↔ claimAccepts name = true)) ∧
    (hasDot name = false →
      (handleDropAccepts name = true ↔
        name.toList.map Char.toLower ∈ bareAllowed)) := by
  constructor
  · intro h
    simp [handleDropAccepts, dropExtension, claimAccepts, h, mem_allowed_iff]
  · intro h
    have hnd : '.' ∉ name.data := by
      simpa [hasDot] using h
    simp [handleDropAccepts, dropExtension, splitOnDot_no_dot _ hnd,
      mem_allowed_iff]

/-- Witness for C9: a dotted name with an uppercase extension is accepted on
both sides of the equivalence, and the dotless name `"txt"` falls under the
whole-name clause. -/
theorem C9_drop_extension_witness :
    handleDropAccepts "Report.PDF" = true ∧
    "txt".toList.map Char.toLower ∈ bareAllowed :=
  ⟨((C9_drop_extension "Report.PDF").1 (by rfl)).mpr (by rfl),
   ((C9_drop_extension "txt").2 (by rfl)).mp (by rfl)⟩

/-! ## Token storage (api.ts 91-122) -/

/-- The `intellidoc_token` entries of the two browser storages. -/
structure StorageState where
  sessionToken : Option String
  localToken : Option String
deriving Repr, DecidableEq

/-- `ApiService.getToken` (api.ts 99-108): prefer the sessionStorage token
when it is truthy, else fall back to the localStorage token. -/
def getToken (st : StorageState) : Option String :=
  match st.sessionToken with
  | some s => if s = "" then st.localToken else some s
  | none => st.localToken

/-- `ApiService.logout` (api.ts 110-116): removes only the localStorage
`intellidoc_token`. -/
def logout (st : StorageState) : StorageState :=
  { st with localToken := none }

/-- `ApiService.getAuthHeaders` (api.ts 118-122): a Bearer header exactly for
a truthy token. -/
def getAuthHeaders (st : StorageState) : List (String × String) :=
  match getToken st with
  | some t => if t = "" then [] else [("Authorization", "Bearer " ++ t)]
  | none => []

/-- C10, counterexample: in the state whose sessionStorage token is the empty
string (a stored session token) and whose localStorage token is `"tok"`,
`getToken` after `logout` returns nothing at all — not the stored session
token — and no Authorization header is emitted. -/
theorem C10_counterexample :
    getToken { sessionToken := some "", localToken := some "tok" } =
      some "tok" ∧
    getToken (logout { sessionToken := some "", localToken := some "tok" }) =
      none ∧
    getAuthHeaders (logout { sessionToken := some "", localToken := some "tok" }) =
      [] := by
  exact ⟨rfl, rfl, rfl⟩

/-- C10 (amended): `logout` removes only the localStorage token and leaves
sessionStorage untouched in every state; whenever the stored session token is
nonempty (truthy), `getToken` after `logout` still returns it and
`getAuthHeaders` still emits the Authorization header; an empty-string
session token behaves as absent. -/
theorem C10_logout_keeps_session (st : StorageState) (t : String) :
    (logout st).sessionToken = st.sessionToken ∧
    (logout st).localToken = none ∧
    (st.sessionToken = some t → t ≠ "" →
      getToken (logout st) = some t ∧
      getAuthHeaders (logout st) = [("Authorization", "Bearer " ++ t)]) := by
  refine ⟨rfl, rfl, ?_⟩
  intro h hne
  constructor
  · simp [getToken, logout, h, hne]
  · simp [getAuthHeaders, getToken, logout, h, hne]

/-- Witness for C10: a concrete state with session token `"tok"` and a
remembered local token, evaluated through the amended theorem. -/
theorem C10_logout_keeps_session_witness :
    getToken (logout { sessionToken := some "tok", localToken := some "loc" }) =
      some "tok" ∧
    getAuthHeaders
        (logout { sessionToken := some "tok", localToken := some "loc" }) =
      [("Authorization", "Bearer tok")] :=
  ((C10_logout_keeps_session
      { sessionToken := some "tok", localToken := some "loc" } "tok").2.2
    rfl (by decide))

end IntelliDoc
